import Mathlib

/-!
# Verification of the tuntap packet framing layer

A shallow embedding of `src/tuntap/tun.go` (package `tuntap`).  Bytes are
modelled as natural numbers (a Go `byte` is always `< 256`), Go byte slices
as `List Nat`, and the fallible operations as `Except`-returning functions.
The platform-specific device creation helpers (`openDevice`,
`createInterface`) are not part of the file; `Open`'s own control flow is
embedded with the collaborator's outcomes passed in as parameters.
-/

namespace Tuntap

/-- The error values produced by the Go code, as an enumeration:
`shortFrame` is `errors.New("Not a IPv6 packet")`,
`malformedHeader` is `errors.New("Payload length not matching")`,
`sizeMismatch` is `errors.New("IPv6 headers are required")`,
`shortWrite` is `io.ErrShortWrite`, and `stream c` stands for an error
propagated verbatim from the underlying file read/write/open calls. -/
inductive TunError where
  | shortFrame
  | malformedHeader
  | sizeMismatch
  | shortWrite
  | stream (code : Nat)
deriving DecidableEq, Repr

/-- `const ipHeaderLength = 40` (tun.go:33). -/
def ipHeaderLength : Nat := 40

/-- `type IPHeader struct { Data []byte }` (tun.go:48-50). -/
structure IPHeader where
  data : List Nat
deriving DecidableEq, Repr

/-- `func (h IPHeader) version() int { i := h.Data[0] >> 4; return int(i) }`
(tun.go:52-57).  On a byte (`< 256`), `>> 4` is division by 16. -/
def IPHeader.version (h : IPHeader) : Nat :=
  h.data.getD 0 0 / 16

/-- `func (h IPHeader) PayloadLength() int` (tun.go:59-63):
`binary.BigEndian.Uint16(h.Data[4:6])`, i.e. `Data[4]*256 + Data[5]`. -/
def IPHeader.PayloadLength (h : IPHeader) : Nat :=
  h.data.getD 4 0 * 256 + h.data.getD 5 0

/-- `func (h IPHeader) SourceAddr() []byte { return h.Data[8:24] }`
(tun.go:65-68). -/
def IPHeader.SourceAddr (h : IPHeader) : List Nat :=
  (h.data.drop 8).take 16

/-- `func (h IPHeader) DestAddr() []byte { return h.Data[24:40] }`
(tun.go:70-73). -/
def IPHeader.DestAddr (h : IPHeader) : List Nat :=
  (h.data.drop 24).take 16

/-- `func (h IPHeader) SetSourceAddr(a []byte) error` (tun.go:75-87).
When `len(a) == 16` the code saves `b := h.Data[24:]`, rebuilds
`h.Data = append(h.Data[:8], a...)` and reattaches `h.Data = append(h.Data, b...)`,
i.e. the new data is `Data[0:8] ++ a ++ Data[24:]`; otherwise it returns the
size-mismatch error without touching `Data`.  The result pairs the header
state after the call with the returned error (`none` = Go `nil`). -/
def IPHeader.SetSourceAddr (h : IPHeader) (a : List Nat) :
    IPHeader × Option TunError :=
  if a.length = 16 then
    (⟨h.data.take 8 ++ a ++ h.data.drop 24⟩, none)
  else
    (h, some .sizeMismatch)

/-- `func (h IPHeader) SetDestAddr(a []byte) error` (tun.go:89-99).
When `len(a) == 16` the code sets `h.Data = append(h.Data[:24], a...)`;
otherwise it returns the size-mismatch error without touching `Data`. -/
def IPHeader.SetDestAddr (h : IPHeader) (a : List Nat) :
    IPHeader × Option TunError :=
  if a.length = 16 then
    (⟨h.data.take 24 ++ a⟩, none)
  else
    (h, some .sizeMismatch)

/-- `type IPPacket struct { Protocol int; Truncated bool; Header IPHeader;
Payload []byte }` (tun.go:36-46). -/
structure IPPacket where
  Protocol : Nat
  Truncated : Bool
  Header : IPHeader
  Payload : List Nat
deriving DecidableEq, Repr

/-- The offset at which `ReadPacket` begins decoding the raw frame:
`start := 0` (tun.go:133), unconditionally — the handle's `meta` flag is not
consulted anywhere in `ReadPacket`. -/
def decodeStart (_meta : Bool) : Nat := 0

/-- `func (t *Interface) ReadPacket() (*IPPacket, error)` (tun.go:123-156),
given the `n` bytes (`buf[:n]`) that the single `t.file.Read(buf)` call
returned (a read error is propagated before any decoding, so it is outside
this function).  The code checks `n < start+ipHeaderLength`, builds the
packet from `buf[start : start+40]` and `buf[start+40 : n]`, rejects it when
the header's declared payload length differs from the actual payload length,
and otherwise sets `Protocol` from the header version nibble.
`Truncated` is never set (the metadata-prefix code is commented out). -/
def ReadPacket (meta : Bool) (frame : List Nat) : Except TunError IPPacket :=
  let start := decodeStart meta
  if frame.length < start + ipHeaderLength then
    .error .shortFrame
  else
    let hdr : IPHeader := ⟨(frame.drop start).take ipHeaderLength⟩
    let payload : List Nat := frame.drop (start + ipHeaderLength)
    if hdr.PayloadLength ≠ payload.length then
      .error .malformedHeader
    else
      .ok ⟨hdr.version, false, hdr, payload⟩

/-- The buffer `WritePacket` passes to the stream write:
`append(packet.Header.Data, packet.Payload...)` (tun.go:163). -/
def writeBuffer (pkt : IPPacket) : List Nat :=
  pkt.Header.data ++ pkt.Payload

/-- `func (t *Interface) WritePacket(packet *IPPacket) error` (tun.go:159-173).
`stream` models `t.file.Write`: it maps the buffer passed to the write to
either a propagated error or the count `n` of bytes reported written.  The
result pairs the bytes handed to the stream with the returned error:
after a successful write the code fails with `io.ErrShortWrite` when
`n != ipHeaderLength + packet.Header.PayloadLength()` (tun.go:169) and
succeeds otherwise.  The handle's `meta` flag is not consulted. -/
def WritePacket (_meta : Bool) (pkt : IPPacket)
    (stream : List Nat → Except TunError Nat) :
    List Nat × Except TunError Unit :=
  let buf := writeBuffer pkt
  (buf,
    match stream buf with
    | .error e => .error e
    | .ok n =>
        if n ≠ ipHeaderLength + pkt.Header.PayloadLength then
          .error .shortWrite
        else
          .ok ())

/-- `type Interface struct { name string; file *os.File; meta bool }`
(tun.go:101-106); the open file is modelled by a numeric handle. -/
structure Interface where
  name : String
  file : Nat
  meta : Bool
deriving DecidableEq, Repr

/-- The outcome of `Open`: the returned value/error, together with the list
of file handles `Open` itself closed before returning. -/
structure OpenResult where
  result : Except TunError Interface
  closedFiles : List Nat
deriving Repr

/-- `func Open(ifPattern string, kind DevKind, meta bool) (*Interface, error)`
(tun.go:191-204).  The platform-specific collaborators are passed in:
`devRes` is the outcome of `openDevice(ifPattern)` and `createRes` maps the
opened file to the outcome of `createInterface(file, ifPattern, kind, meta)`.
The code propagates an `openDevice` error unchanged; on a `createInterface`
error it calls `file.Close()` and propagates the error unchanged; on success
it returns `&Interface{ifName, file, meta}`. -/
def Open (devRes : Except TunError Nat)
    (createRes : Nat → Except TunError String) (meta : Bool) : OpenResult :=
  match devRes with
  | .error e => ⟨.error e, []⟩
  | .ok file =>
      match createRes file with
      | .error e => ⟨.error e, [file]⟩
      | .ok name => ⟨.ok ⟨name, file, meta⟩, []⟩

end Tuntap

deriving instance DecidableEq for Except

namespace Tuntap

/-- A 44-byte frame used as a concrete decoding input: version nibble 6,
declared payload length 4 (bytes 4-5), and a 4-byte payload `[1,2,3,4]`. -/
def metaFrame : List Nat :=
  [96, 0, 0, 0, 0, 4] ++ List.replicate 34 0 ++ [1, 2, 3, 4]

/-- C1: for a raw frame of `n ≥ 40` bytes returned by one stream read,
`ReadPacket` fails with the malformed-header error iff the header's declared
payload length (big-endian 16-bit value at bytes 4-5) differs from the
actual remaining length `n - 40`; when equal it returns the packet whose
`Header` is the first 40 bytes, whose `Payload` is bytes `[40, n)`, and whose
`Protocol` is the header's version nibble. -/
theorem c1_read_header_validation (meta : Bool) (frame : List Nat)
    (hn : ipHeaderLength ≤ frame.length) :
    (ReadPacket meta frame = .error .malformedHeader ↔
      IPHeader.PayloadLength ⟨frame.take ipHeaderLength⟩ ≠
        frame.length - ipHeaderLength) ∧
    (IPHeader.PayloadLength ⟨frame.take ipHeaderLength⟩ =
        frame.length - ipHeaderLength →
      ReadPacket meta frame =
        .ok ⟨IPHeader.version ⟨frame.take ipHeaderLength⟩, false,
          ⟨frame.take ipHeaderLength⟩, frame.drop ipHeaderLength⟩) := by
  have h1 : ¬ frame.length < decodeStart meta + ipHeaderLength := by
    simp only [decodeStart]
    omega
  unfold ReadPacket
  rw [if_neg h1]
  simp only [decodeStart, Nat.zero_add, List.drop_zero, List.length_drop]
  by_cases hd : IPHeader.PayloadLength ⟨frame.take ipHeaderLength⟩ =
      frame.length - ipHeaderLength
  · simp [hd]
  · simp [hd]

/-- Witness for C1 at the concrete 44-byte frame `metaFrame`. -/
theorem c1_read_header_validation_witness :
    (ReadPacket false metaFrame = .error .malformedHeader ↔
      IPHeader.PayloadLength ⟨metaFrame.take ipHeaderLength⟩ ≠
        metaFrame.length - ipHeaderLength) ∧
    (IPHeader.PayloadLength ⟨metaFrame.take ipHeaderLength⟩ =
        metaFrame.length - ipHeaderLength →
      ReadPacket false metaFrame =
        .ok ⟨IPHeader.version ⟨metaFrame.take ipHeaderLength⟩, false,
          ⟨metaFrame.take ipHeaderLength⟩, metaFrame.drop ipHeaderLength⟩) :=
  c1_read_header_validation false metaFrame (by decide)

/-- C2 counterexample: with the meta flag set, `ReadPacket` still decodes
from byte 0 — on `metaFrame` it returns the header taken from bytes
`[0, 40)`, which differs from the bytes `[4, 44)` the claim requires. -/
theorem c2_counterexample :
    ReadPacket true metaFrame =
      .ok ⟨6, false, ⟨metaFrame.take ipHeaderLength⟩, [1, 2, 3, 4]⟩ ∧
    metaFrame.take ipHeaderLength ≠
      (metaFrame.drop 4).take ipHeaderLength := by
  constructor
  · rfl
  · decide

/-- C2 (amended): the decode offset is always 0, whatever the meta flag —
`ReadPacket` ignores the flag entirely, and any packet it returns has its
header taken from bytes `[0, 40)` and its payload from byte 40 on. -/
theorem c2_decode_offset_zero (meta : Bool) (frame : List Nat) :
    decodeStart meta = 0 ∧
    ReadPacket meta frame = ReadPacket false frame ∧
    (∀ pkt : IPPacket, ReadPacket meta frame = .ok pkt →
      pkt.Header.data = frame.take ipHeaderLength ∧
      pkt.Payload = frame.drop ipHeaderLength) := by
  refine ⟨rfl, rfl, ?_⟩
  intro pkt h
  unfold ReadPacket at h
  simp only [decodeStart, Nat.zero_add, List.drop_zero] at h
  split at h
  · exact Except.noConfusion h
  · split at h
    · exact Except.noConfusion h
    · injection h with h2
      subst h2
      exact ⟨rfl, rfl⟩

/-- A stream write that accepts every buffer in full: it reports no error
and a written count equal to the buffer's length. -/
def okStream : List Nat → Except TunError Nat := fun b => .ok b.length

/-- A concrete packet with a 40-byte all-zero header (declared payload
length 0) and a 2-byte payload, protocol 0x0800. -/
def zeroHdrPkt : IPPacket := ⟨2048, false, ⟨List.replicate 40 0⟩, [9, 9]⟩

/-- A concrete packet whose 40-byte header declares payload length 5 while
its actual payload is the 3 bytes `[1,2,3]`. -/
def declared5Pkt : IPPacket :=
  ⟨0, false, ⟨List.replicate 4 0 ++ [0, 5] ++ List.replicate 34 0⟩, [1, 2, 3]⟩

/-- C3 counterexample: with the meta flag set, the buffer `WritePacket`
hands to the stream for `zeroHdrPkt` has 42 bytes (header ++ payload), not
the `len(payload) + 4 = 6` bytes of the claimed meta-prefix layout, and it
is not the claimed prefix-plus-payload byte string. -/
theorem c3_counterexample :
    ((WritePacket true zeroHdrPkt okStream).1).length = 42 ∧
    (42 : Nat) ≠ zeroHdrPkt.Payload.length + 4 ∧
    (WritePacket true zeroHdrPkt okStream).1 ≠ [0, 0, 8, 0, 9, 9] := by
  refine ⟨by decide, by decide, by decide⟩

/-- C3 (amended): whatever the meta flag, `WritePacket` hands the stream the
header bytes followed by the payload verbatim — for a 40-byte header the
buffer has `40 + len(payload)` bytes, its first 40 bytes are the header and
the rest is the payload; no metadata prefix is ever prepended. -/
theorem c3_write_buffer_layout (meta : Bool) (pkt : IPPacket)
    (stream : List Nat → Except TunError Nat)
    (hd : pkt.Header.data.length = ipHeaderLength) :
    ((WritePacket meta pkt stream).1).length =
      ipHeaderLength + pkt.Payload.length ∧
    ((WritePacket meta pkt stream).1).take ipHeaderLength = pkt.Header.data ∧
    ((WritePacket meta pkt stream).1).drop ipHeaderLength = pkt.Payload ∧
    (WritePacket meta pkt stream).1 = (WritePacket false pkt stream).1 := by
  have h1 : (WritePacket meta pkt stream).1 = pkt.Header.data ++ pkt.Payload :=
    rfl
  rw [h1]
  refine ⟨?_, ?_, ?_, rfl⟩
  · rw [List.length_append, hd]
  · rw [← hd, List.take_left]
  · rw [← hd, List.drop_left]

/-- Witness for C3's amended statement at the packet `zeroHdrPkt`. -/
theorem c3_write_buffer_layout_witness :
    ((WritePacket true zeroHdrPkt okStream).1).length =
      ipHeaderLength + zeroHdrPkt.Payload.length ∧
    ((WritePacket true zeroHdrPkt okStream).1).take ipHeaderLength =
      zeroHdrPkt.Header.data ∧
    ((WritePacket true zeroHdrPkt okStream).1).drop ipHeaderLength =
      zeroHdrPkt.Payload ∧
    (WritePacket true zeroHdrPkt okStream).1 =
      (WritePacket false zeroHdrPkt okStream).1 :=
  c3_write_buffer_layout true zeroHdrPkt okStream (by decide)

/-- C4 counterexample: on `declared5Pkt` the stream accepts the whole
43-byte buffer (reporting exactly its length, with no error), yet
`WritePacket` returns the short-write error, because it compares the count
against `40 + 5 = 45`, not against the buffer length. -/
theorem c4_counterexample :
    okStream (writeBuffer declared5Pkt) = .ok 43 ∧
    (writeBuffer declared5Pkt).length = 43 ∧
    (WritePacket true declared5Pkt okStream).2 = .error .shortWrite := by
  refine ⟨by decide, by decide, by decide⟩

/-- C4 (amended): when the stream write itself reports no error and a count
`n`, `WritePacket` returns the short-write error exactly when `n` differs
from `40` plus the header's declared payload-length field, and succeeds
otherwise; nothing is retried. -/
theorem c4_short_write_condition (meta : Bool) (pkt : IPPacket) (n : Nat) :
    (WritePacket meta pkt (fun _ => .ok n)).2 =
      if n = ipHeaderLength + IPHeader.PayloadLength pkt.Header then .ok ()
      else .error .shortWrite := by
  by_cases hn : n = ipHeaderLength + IPHeader.PayloadLength pkt.Header
  · simp [WritePacket, hn]
  · simp [WritePacket, hn]

/-- C9: if the stream accepts the entire buffer without error but the
header's declared payload-length field differs from the actual payload
length, `WritePacket` still returns the short-write error (the comparison
is against `40 + declared`, not the buffer length). -/
theorem c9_declared_mismatch_short_write (meta : Bool) (pkt : IPPacket)
    (hd : pkt.Header.data.length = ipHeaderLength)
    (hne : IPHeader.PayloadLength pkt.Header ≠ pkt.Payload.length) :
    (WritePacket meta pkt okStream).2 = .error .shortWrite := by
  show (if (writeBuffer pkt).length ≠
          ipHeaderLength + IPHeader.PayloadLength pkt.Header
        then Except.error TunError.shortWrite
        else Except.ok ()) = Except.error TunError.shortWrite
  have hb : (writeBuffer pkt).length = ipHeaderLength + pkt.Payload.length := by
    unfold writeBuffer
    rw [List.length_append, hd]
  rw [if_pos (by omega)]

/-- Witness for C9 at a packet whose header declares length 0 but whose
payload has one byte. -/
theorem c9_declared_mismatch_short_write_witness :
    (WritePacket true ⟨0, false, ⟨List.replicate 40 0⟩, [7]⟩ okStream).2 =
      .error .shortWrite :=
  c9_declared_mismatch_short_write true
    ⟨0, false, ⟨List.replicate 40 0⟩, [7]⟩ (by decide) (by decide)

/-- C6: on a 40-byte header, `SetSourceAddr` and `SetDestAddr` with an
input whose length is not 16 both return the size-mismatch error and leave
the header bytes exactly as they were. -/
theorem c6_setaddr_size_mismatch (d a : List Nat)
    (_hd : d.length = ipHeaderLength) (ha : a.length ≠ 16) :
    IPHeader.SetSourceAddr ⟨d⟩ a = (⟨d⟩, some .sizeMismatch) ∧
    IPHeader.SetDestAddr ⟨d⟩ a = (⟨d⟩, some .sizeMismatch) := by
  unfold IPHeader.SetSourceAddr IPHeader.SetDestAddr
  rw [if_neg ha, if_neg ha]
  exact ⟨rfl, rfl⟩

/-- Witness for C6 at a 40-byte zero header and a 15-byte input. -/
theorem c6_setaddr_size_mismatch_witness :
    IPHeader.SetSourceAddr ⟨List.replicate 40 0⟩ (List.replicate 15 7) =
      (⟨List.replicate 40 0⟩, some .sizeMismatch) ∧
    IPHeader.SetDestAddr ⟨List.replicate 40 0⟩ (List.replicate 15 7) =
      (⟨List.replicate 40 0⟩, some .sizeMismatch) :=
  c6_setaddr_size_mismatch (List.replicate 40 0) (List.replicate 15 7)
    (by decide) (by decide)

/-- C8: `Open` propagates an `openDevice` error unchanged without closing
anything (no stream was opened); when `openDevice` succeeds but
`createInterface` fails, it closes the opened file and propagates that error
unchanged; on success it returns the handle holding the resolved name, the
file and the meta flag, closing nothing. -/
theorem c8_open_error_propagation (meta : Bool) (e : TunError) (file : Nat)
    (name : String) (cr : Nat → Except TunError String) :
    Open (.error e) cr meta = ⟨.error e, []⟩ ∧
    Open (.ok file) (fun f => if f = file then .error e else cr f) meta =
      ⟨.error e, [file]⟩ ∧
    Open (.ok file) (fun f => if f = file then .ok name else cr f) meta =
      ⟨.ok ⟨name, file, meta⟩, []⟩ := by
  refine ⟨rfl, ?_, ?_⟩
  · unfold Open
    simp
  · unfold Open
    simp

/-- C5: a read that returns fewer bytes than the decode offset plus the 40
bytes the header check requires makes `ReadPacket` fail with the
short-frame error (and hence return no packet). -/
theorem c5_short_frame (meta : Bool) (frame : List Nat)
    (h : frame.length < decodeStart meta + ipHeaderLength) :
    ReadPacket meta frame = .error .shortFrame := by
  unfold ReadPacket
  rw [if_pos h]

/-- Witness for C5 at a concrete 3-byte read with the meta flag set. -/
theorem c5_short_frame_witness :
    ReadPacket true [0, 1, 2] = .error .shortFrame :=
  c5_short_frame true [0, 1, 2] (by decide)

/-- C7: on a 40-byte header, `SetDestAddr` with a 16-byte address succeeds,
after which `DestAddr` returns exactly that address while bytes `[0, 24)` —
in particular `SourceAddr` — are unchanged; symmetrically `SetSourceAddr`
succeeds, after which `SourceAddr` returns exactly the address while bytes
`[0, 8)` and the tail from offset 24 (including `DestAddr`) are preserved
verbatim. -/
theorem c7_setaddr_success (d a : List Nat)
    (hd : d.length = ipHeaderLength) (ha : a.length = 16) :
    (IPHeader.SetDestAddr ⟨d⟩ a).2 = none ∧
    ((IPHeader.SetDestAddr ⟨d⟩ a).1).DestAddr = a ∧
    ((IPHeader.SetDestAddr ⟨d⟩ a).1).data.take 24 = d.take 24 ∧
    ((IPHeader.SetDestAddr ⟨d⟩ a).1).SourceAddr = IPHeader.SourceAddr ⟨d⟩ ∧
    (IPHeader.SetSourceAddr ⟨d⟩ a).2 = none ∧
    ((IPHeader.SetSourceAddr ⟨d⟩ a).1).SourceAddr = a ∧
    ((IPHeader.SetSourceAddr ⟨d⟩ a).1).data.take 8 = d.take 8 ∧
    ((IPHeader.SetSourceAddr ⟨d⟩ a).1).data.drop 24 = d.drop 24 ∧
    ((IPHeader.SetSourceAddr ⟨d⟩ a).1).DestAddr = IPHeader.DestAddr ⟨d⟩ := by
  simp only [ipHeaderLength] at hd
  have hx24 : (d.take 24).length = 24 := by
    rw [List.length_take]
    omega
  have hx8 : (d.take 8).length = 8 := by
    rw [List.length_take]
    omega
  have hDdrop : (d.take 24 ++ a).drop 24 = a := by
    have h := List.drop_left (d.take 24) a
    rwa [hx24] at h
  have hDtake : (d.take 24 ++ a).take 24 = d.take 24 := by
    have h := List.take_left (d.take 24) a
    rwa [hx24] at h
  have hTakeA : a.take 16 = a := by
    rw [← ha, List.take_length]
  have hSdrop8 : (d.take 24 ++ a).drop 8 = (d.take 24).drop 8 ++ a := by
    rw [List.drop_append_eq_append_drop, hx24]
    norm_num
  have hx16 : ((d.take 24).drop 8).length = 16 := by
    rw [List.length_drop, hx24]
  have hSrcD : ((d.take 24 ++ a).drop 8).take 16 = (d.take 24).drop 8 := by
    rw [hSdrop8]
    have h := List.take_left ((d.take 24).drop 8) a
    rwa [hx16] at h
  have hdt : (d.take 24).drop 8 = (d.drop 8).take 16 := by
    rw [List.drop_take]
  have hy : (d.take 8 ++ a ++ d.drop 24).drop 8 = a ++ d.drop 24 := by
    rw [List.append_assoc]
    have h := List.drop_left (d.take 8) (a ++ d.drop 24)
    rwa [hx8] at h
  have hta : (a ++ d.drop 24).take 16 = a := by
    have h := List.take_left a (d.drop 24)
    rwa [ha] at h
  have htk8 : (d.take 8 ++ a ++ d.drop 24).take 8 = d.take 8 := by
    rw [List.append_assoc]
    have h := List.take_left (d.take 8) (a ++ d.drop 24)
    rwa [hx8] at h
  have hxa : (d.take 8 ++ a).length = 24 := by
    rw [List.length_append, hx8, ha]
  have hdp24 : (d.take 8 ++ a ++ d.drop 24).drop 24 = d.drop 24 := by
    have h := List.drop_left (d.take 8 ++ a) (d.drop 24)
    rwa [hxa] at h
  unfold IPHeader.SetDestAddr IPHeader.SetSourceAddr
  rw [if_pos ha, if_pos ha]
  refine ⟨rfl, ?_, ?_, ?_, rfl, ?_, ?_, ?_, ?_⟩
  · show ((d.take 24 ++ a).drop 24).take 16 = a
    rw [hDdrop]
    exact hTakeA
  · exact hDtake
  · show ((d.take 24 ++ a).drop 8).take 16 = (d.drop 8).take 16
    rw [hSrcD, hdt]
  · show ((d.take 8 ++ a ++ d.drop 24).drop 8).take 16 = a
    rw [hy]
    exact hta
  · exact htk8
  · exact hdp24
  · show ((d.take 8 ++ a ++ d.drop 24).drop 24).take 16 = (d.drop 24).take 16
    rw [hdp24]

/-- Witness for C7 at a 40-byte header `0,…,39` and the address
`100,…,115`. -/
theorem c7_setaddr_success_witness :
    (IPHeader.SetDestAddr ⟨List.range 40⟩ (List.range' 100 16)).2 = none ∧
    ((IPHeader.SetDestAddr ⟨List.range 40⟩ (List.range' 100 16)).1).DestAddr =
      List.range' 100 16 ∧
    ((IPHeader.SetDestAddr ⟨List.range 40⟩
        (List.range' 100 16)).1).data.take 24 = (List.range 40).take 24 ∧
    ((IPHeader.SetDestAddr ⟨List.range 40⟩
        (List.range' 100 16)).1).SourceAddr =
      IPHeader.SourceAddr ⟨List.range 40⟩ ∧
    (IPHeader.SetSourceAddr ⟨List.range 40⟩ (List.range' 100 16)).2 = none ∧
    ((IPHeader.SetSourceAddr ⟨List.range 40⟩
        (List.range' 100 16)).1).SourceAddr = List.range' 100 16 ∧
    ((IPHeader.SetSourceAddr ⟨List.range 40⟩
        (List.range' 100 16)).1).data.take 8 = (List.range 40).take 8 ∧
    ((IPHeader.SetSourceAddr ⟨List.range 40⟩
        (List.range' 100 16)).1).data.drop 24 = (List.range 40).drop 24 ∧
    ((IPHeader.SetSourceAddr ⟨List.range 40⟩
        (List.range' 100 16)).1).DestAddr =
      IPHeader.DestAddr ⟨List.range 40⟩ :=
  c7_setaddr_success (List.range 40) (List.range' 100 16)
    (by decide) (by decide)

/-- C10: each header accessor reads only bytes `[0, 40)` of the header's
slice — on a slice of at least 40 bytes it agrees with the accessor applied
to the first 40 bytes, and the two address views have length 16 (all reads
in bounds) — and every packet `ReadPacket` returns carries a header slice of
exactly 40 bytes. -/
theorem c10_accessors_in_bounds (d : List Nat)
    (hd : ipHeaderLength ≤ d.length) :
    IPHeader.version ⟨d⟩ = IPHeader.version ⟨d.take ipHeaderLength⟩ ∧
    IPHeader.PayloadLength ⟨d⟩ =
      IPHeader.PayloadLength ⟨d.take ipHeaderLength⟩ ∧
    IPHeader.SourceAddr ⟨d⟩ = IPHeader.SourceAddr ⟨d.take ipHeaderLength⟩ ∧
    IPHeader.DestAddr ⟨d⟩ = IPHeader.DestAddr ⟨d.take ipHeaderLength⟩ ∧
    (IPHeader.SourceAddr ⟨d⟩).length = 16 ∧
    (IPHeader.DestAddr ⟨d⟩).length = 16 ∧
    (∀ (meta : Bool) (frame : List Nat) (pkt : IPPacket),
      ReadPacket meta frame = .ok pkt →
      pkt.Header.data.length = ipHeaderLength) := by
  have hget : ∀ i : Nat, i < ipHeaderLength →
      (d.take ipHeaderLength).getD i 0 = d.getD i 0 := by
    intro i hi
    rw [List.getD_eq_getElem?_getD, List.getD_eq_getElem?_getD,
      List.getElem?_take, if_pos hi]
  refine ⟨?_, ?_, ?_, ?_, ?_, ?_, ?_⟩
  · show d.getD 0 0 / 16 = (d.take ipHeaderLength).getD 0 0 / 16
    rw [hget 0 (by decide)]
  · show d.getD 4 0 * 256 + d.getD 5 0 =
      (d.take ipHeaderLength).getD 4 0 * 256 + (d.take ipHeaderLength).getD 5 0
    rw [hget 4 (by decide), hget 5 (by decide)]
  · show (d.drop 8).take 16 = ((d.take ipHeaderLength).drop 8).take 16
    rw [List.drop_take, List.take_take]
    norm_num [ipHeaderLength]
  · show (d.drop 24).take 16 = ((d.take ipHeaderLength).drop 24).take 16
    rw [List.drop_take, List.take_take]
    norm_num [ipHeaderLength]
  · show ((d.drop 8).take 16).length = 16
    rw [List.length_take, List.length_drop]
    simp only [ipHeaderLength] at hd
    omega
  · show ((d.drop 24).take 16).length = 16
    rw [List.length_take, List.length_drop]
    simp only [ipHeaderLength] at hd
    omega
  · intro meta frame pkt h
    unfold ReadPacket at h
    simp only [decodeStart, Nat.zero_add, List.drop_zero] at h
    split at h
    · exact Except.noConfusion h
    · rename_i hlt
      split at h
      · exact Except.noConfusion h
      · injection h with h2
        subst h2
        show ((frame.take ipHeaderLength).length) = ipHeaderLength
        rw [List.length_take]
        simp only [ipHeaderLength] at hlt ⊢
        omega

/-- Witness for C10 at a 44-byte slice. -/
theorem c10_accessors_in_bounds_witness :
    IPHeader.version ⟨List.range 44⟩ =
      IPHeader.version ⟨(List.range 44).take ipHeaderLength⟩ ∧
    IPHeader.PayloadLength ⟨List.range 44⟩ =
      IPHeader.PayloadLength ⟨(List.range 44).take ipHeaderLength⟩ ∧
    IPHeader.SourceAddr ⟨List.range 44⟩ =
      IPHeader.SourceAddr ⟨(List.range 44).take ipHeaderLength⟩ ∧
    IPHeader.DestAddr ⟨List.range 44⟩ =
      IPHeader.DestAddr ⟨(List.range 44).take ipHeaderLength⟩ ∧
    (IPHeader.SourceAddr ⟨List.range 44⟩).length = 16 ∧
    (IPHeader.DestAddr ⟨List.range 44⟩).length = 16 ∧
    (∀ (meta : Bool) (frame : List Nat) (pkt : IPPacket),
      ReadPacket meta frame = .ok pkt →
      pkt.Header.data.length = ipHeaderLength) :=
  c10_accessors_in_bounds (List.range 44) (by decide)

end Tuntap
